import Mathlib

/-!
Verification of the dev-mode watcher / restart orchestrator and the
start-module generator.  The definitions below are a shallow embedding of
the source: the watcher file (`createWatcher`, `restart`,
`createPathMatcher`, the `onServerListening` link callback) and
`createStartModuleContent`.  Effectful code is modelled by explicit state
passing together with an action trace; promise rejection / thrown
exceptions are modelled by an error flag on the result.
-/

namespace Nexus

/-- Raw chokidar change-event kinds (`Chok.ChangeEvent['type']`). -/
inductive ChokEventType
  | add
  | addDir
  | change
  | unlink
  | unlinkDir
deriving DecidableEq, Repr

/-- The `ChangeEvent` union of the source: the synthetic init event
(`{ type: 'init', file: null }`), a raw watcher event, or the synthetic
plugin-requested event (`{ type: 'plugin', file }`). -/
inductive ChangeEvent
  | init
  | watch (t : ChokEventType) (file : String)
  | plugin (file : String)
deriving Repr

/-- `PostInitChangeEvent`: every change event except the synthetic init
event; its `file` is always a string (never null). -/
inductive PostInitChangeEvent
  | watch (t : ChokEventType) (file : String)
  | plugin (file : String)
deriving DecidableEq, Repr

/-- The `file` field of a post-init change event. -/
def PostInitChangeEvent.file : PostInitChangeEvent → String
  | .watch _ f => f
  | .plugin f => f

/-- Inclusion of post-init change events into all change events. -/
def toChangeEvent : PostInitChangeEvent → ChangeEvent
  | .watch t f => ChangeEvent.watch t f
  | .plugin f => ChangeEvent.plugin f

/-- Outcome of one invocation of `onBeforeWatcherStartOrRestart`: either
the promise resolves (`ok patch`, where `patch` records whether a truthy
`runnerChanges` value was returned) or it rejects (`err`). -/
inductive HookRes
  | ok (patch : Bool)
  | err
deriving DecidableEq, Repr

/-- Outcome of a hook that yields no value (`onBeforeWatcherRestart`,
`onAfterWatcherRestart`, `link.startOrRestart`): success or a raised
error / rejected promise. -/
inductive HookURes
  | ok
  | err
deriving DecidableEq, Repr

/-- Observable side effects of the watcher code, recorded as a trace. -/
inductive Action
  | log (msg : String)
  | clearConsole
  | setRestarting (b : Bool)
  | hookBeforeStartOrRestart (i : Nat)
  | linkUpdateOptions (i : Nat)
  | hookBeforeRestart (i : Nat)
  | compilerInit
  | compileChanged (file : String)
  | linkStartOrRestart
  | hookAfterRestart (i : Nat)
  | watcherPause
  | watcherResume
deriving DecidableEq, Repr

/-- `addToWatcherSettings.listeners.app`: ignore patterns contributed to
the shared (global) listener.  Patterns and paths are embedded as
character lists. -/
structure AppListenerSettings where
  ignoreFilePatterns : Option (List (List Char))

/-- `addToWatcherSettings.listeners.plugin`: the allow/ignore pattern
pair scoped to this plugin's own listener. -/
structure PluginListenerSettings where
  allowFilePatterns : Option (List (List Char))
  ignoreFilePatterns : Option (List (List Char))

/-- `addToWatcherSettings.listeners`, with both members optional. -/
structure ListenerSettings where
  app : Option AppListenerSettings
  plugin : Option PluginListenerSettings

/-- `addToWatcherSettings` of a plugin's worktime hooks. -/
structure WatcherSettings where
  watchFilePatterns : Option (List (List Char))
  listeners : Option ListenerSettings

/-- The `dev` hook set of one plugin (`WorktimeHooks`): each lifecycle
hook is optional; the behaviour of a present hook is given by its
outcome (per change event for `onBeforeWatcherStartOrRestart`).
`hasOnFileWatcherEvent` records whether the plugin registered a scoped
file-event listener. -/
structure PluginDev where
  onBeforeWatcherStartOrRestart : Option (ChangeEvent → HookRes)
  onBeforeWatcherRestart : Option HookURes
  onAfterWatcherRestart : Option HookURes
  hasOnFileWatcherEvent : Bool
  addToWatcherSettings : WatcherSettings

/-- Environment of a restart cycle: the registered plugins (in
registration order), the compiler's tracked `tsConfigPath`, and the
outcome of `link.startOrRestart()`. -/
structure Env where
  plugins : List PluginDev
  tsConfigPath : String
  linkStartOrRestart : HookURes

/-- Mutable state of the watcher system: the `restarting` busy-guard
flag, and the watch-intake `paused` flag of the file-watcher wrapper
(modelled from the spec: the watch primitive exposes `pause`/`resume`
over its event stream; `paused` is set by `pause()` and cleared by
`resume()`). -/
structure WState where
  restarting : Bool
  paused : Bool
deriving DecidableEq, Repr

/-- Result of running a piece of watcher code: the emitted action trace,
the final state, and whether an error propagated out (a rejected promise
or uncaught throw). -/
structure RunRes where
  trace : List Action
  state : WState
  error : Bool
deriving DecidableEq, Repr

/-- The `for (const plugin of plugins)` loop awaiting each plugin's
`onBeforeWatcherStartOrRestart?.(change)` and calling
`link.updateOptions` on a truthy result.  `i` is the registration index
of the head plugin.  A rejected hook propagates: later plugins are not
visited. -/
def runBeforeSORHooks (change : ChangeEvent) : Nat → List PluginDev → List Action × Bool
  | _, [] => ([], false)
  | i, p :: rest =>
    match p.onBeforeWatcherStartOrRestart with
    | none => runBeforeSORHooks change (i + 1) rest
    | some f =>
      match f change with
      | HookRes.err => ([Action.hookBeforeStartOrRestart i], true)
      | HookRes.ok patch =>
        let t := runBeforeSORHooks change (i + 1) rest
        (Action.hookBeforeStartOrRestart i ::
          ((if patch then [Action.linkUpdateOptions i] else []) ++ t.1), t.2)

/-- The `plugins.forEach((p) => p.dev.onBeforeWatcherRestart?.())` loop.
A synchronously thrown error propagates out of `forEach`: later plugins
are not visited. -/
def runBeforeRestartHooks : Nat → List PluginDev → List Action × Bool
  | _, [] => ([], false)
  | i, p :: rest =>
    match p.onBeforeWatcherRestart with
    | none => runBeforeRestartHooks (i + 1) rest
    | some HookURes.ok =>
      let t := runBeforeRestartHooks (i + 1) rest
      (Action.hookBeforeRestart i :: t.1, t.2)
    | some HookURes.err => ([Action.hookBeforeRestart i], true)

/-- The `options.plugins.forEach((p) => p.dev.onAfterWatcherRestart?.())`
loop inside the link's `onServerListening` callback. -/
def runAfterRestartHooks : Nat → List PluginDev → List Action × Bool
  | _, [] => ([], false)
  | i, p :: rest =>
    match p.onAfterWatcherRestart with
    | none => runAfterRestartHooks (i + 1) rest
    | some HookURes.ok =>
      let t := runAfterRestartHooks (i + 1) rest
      (Action.hookAfterRestart i :: t.1, t.2)
    | some HookURes.err => ([Action.hookAfterRestart i], true)

/-- The `restart` function of the watcher.  Faithful to the source: the
busy-guard check-and-return, `restarting = true`, `clearConsole()`, the
awaited `onBeforeWatcherStartOrRestart` loop with `updateOptions`, the
`onBeforeWatcherRestart` forEach, the tsconfig full-reinitialisation
branch, the unconditional `compileChanged(change.file)`, the awaited
`link.startOrRestart()`, and finally `restarting = false`.  There is no
try/catch or try/finally in the source, so any error aborts the rest of
the body with `restarting` left `true`. -/
def restart (env : Env) (change : PostInitChangeEvent) (s : WState) : RunRes :=
  if s.restarting then
    { trace := [Action.log "restart already in progress"], state := s, error := false }
  else
    let sBusy : WState := { s with restarting := true }
    let pre : List Action :=
      [Action.setRestarting true, Action.clearConsole,
       Action.log "hook beforeWatcherStartOrRestart"]
    let r1 := runBeforeSORHooks (toChangeEvent change) 0 env.plugins
    if r1.2 then { trace := pre ++ r1.1, state := sBusy, error := true }
    else
      let r2 := runBeforeRestartHooks 0 env.plugins
      let pre2 := pre ++ r1.1 ++ [Action.log "hook beforeWatcherRestart"] ++ r2.1
      if r2.2 then { trace := pre2, state := sBusy, error := true }
      else
        let pre3 := pre2 ++ [Action.log "restarting"] ++
          (if change.file = env.tsConfigPath then
            [Action.log "reinitializing TS compilation", Action.compilerInit]
          else []) ++
          [Action.compileChanged change.file, Action.linkStartOrRestart]
        match env.linkStartOrRestart with
        | HookURes.err => { trace := pre3, state := sBusy, error := true }
        | HookURes.ok =>
          { trace := pre3 ++ [Action.setRestarting false],
            state := { sBusy with restarting := false }, error := false }

/-- The inline first-start block of `createWatcher` (between the watcher
setup and the definition of `restart`): `restarting = true`,
`clearConsole()`, the awaited `onBeforeWatcherStartOrRestart` loop fed
the synthetic init event, the awaited `link.startOrRestart()`, then
`restarting = false`.  It runs no `onBeforeWatcherRestart` hooks and no
compiler calls. -/
def initStart (env : Env) (s : WState) : RunRes :=
  let pre : List Action := [Action.setRestarting true, Action.clearConsole]
  let r1 := runBeforeSORHooks ChangeEvent.init 0 env.plugins
  if r1.2 then { trace := pre ++ r1.1, state := { s with restarting := true }, error := true }
  else
    match env.linkStartOrRestart with
    | HookURes.err =>
      { trace := pre ++ r1.1 ++ [Action.linkStartOrRestart],
        state := { s with restarting := true }, error := true }
    | HookURes.ok =>
      { trace := pre ++ r1.1 ++ [Action.linkStartOrRestart, Action.setRestarting false],
        state := { s with restarting := false }, error := false }

/-- The link's `onServerListening` callback: every plugin's
`onAfterWatcherRestart?.()` in registration order, then
`watcher.resume()`.  A throwing hook propagates: later plugins are not
visited and `resume` is never reached. -/
def onServerListening (plugins : List PluginDev) (s : WState) : RunRes :=
  let r := runAfterRestartHooks 0 plugins
  if r.2 then { trace := r.1, state := s, error := true }
  else
    { trace := r.1 ++ [Action.watcherResume],
      state := { s with paused := false }, error := false }

/-- Success of a plugin's `onBeforeWatcherStartOrRestart` hook on a given
event (vacuously true when the hook is absent). -/
def pluginSorOk (change : ChangeEvent) (p : PluginDev) : Bool :=
  match p.onBeforeWatcherStartOrRestart with
  | none => true
  | some f =>
    match f change with
    | HookRes.err => false
    | HookRes.ok _ => true

/-- Success of a plugin's `onBeforeWatcherRestart` hook. -/
def pluginBrOk (p : PluginDev) : Bool :=
  match p.onBeforeWatcherRestart with
  | none => true
  | some HookURes.ok => true
  | some HookURes.err => false

/-- Success of a plugin's `onAfterWatcherRestart` hook. -/
def pluginArOk (p : PluginDev) : Bool :=
  match p.onAfterWatcherRestart with
  | none => true
  | some HookURes.ok => true
  | some HookURes.err => false

/-- All `onBeforeWatcherStartOrRestart` hooks succeed on this event. -/
def allSorOk (change : ChangeEvent) (plugins : List PluginDev) : Bool :=
  plugins.all (pluginSorOk change)

/-- All `onBeforeWatcherRestart` hooks succeed. -/
def allBrOk (plugins : List PluginDev) : Bool :=
  plugins.all pluginBrOk

/-- All `onAfterWatcherRestart` hooks succeed. -/
def allArOk (plugins : List PluginDev) : Bool :=
  plugins.all pluginArOk

/-- Phase-level events of a restart cycle, used to state ordering
properties abstractly over the full action trace. -/
inductive PhaseEv
  | sor (i : Nat)
  | br (i : Nat)
  | cinit
  | cchanged
  | link
  | idle
deriving DecidableEq, Repr

/-- Projection of an action to its phase-level event; logging,
console-clearing, entering the busy state and `updateOptions` calls are
not phases. -/
def phaseTag : Action → Option PhaseEv
  | Action.hookBeforeStartOrRestart i => some (PhaseEv.sor i)
  | Action.hookBeforeRestart i => some (PhaseEv.br i)
  | Action.compilerInit => some PhaseEv.cinit
  | Action.compileChanged _ => some PhaseEv.cchanged
  | Action.linkStartOrRestart => some PhaseEv.link
  | Action.setRestarting false => some PhaseEv.idle
  | _ => none

/-- Registration-ordered phase-3 events: one `sor i` per plugin that has
an `onBeforeWatcherStartOrRestart` hook, `i` its registration index. -/
def sorPhases : Nat → List PluginDev → List PhaseEv
  | _, [] => []
  | i, p :: rest =>
    match p.onBeforeWatcherStartOrRestart with
    | none => sorPhases (i + 1) rest
    | some _ => PhaseEv.sor i :: sorPhases (i + 1) rest

/-- Registration-ordered phase-4 events: one `br i` per plugin that has
an `onBeforeWatcherRestart` hook. -/
def brPhases : Nat → List PluginDev → List PhaseEv
  | _, [] => []
  | i, p :: rest =>
    match p.onBeforeWatcherRestart with
    | none => brPhases (i + 1) rest
    | some _ => PhaseEv.br i :: brPhases (i + 1) rest

/-- Registration-ordered post-restart hook actions: one per plugin with
an `onAfterWatcherRestart` hook. -/
def arActions : Nat → List PluginDev → List Action
  | _, [] => []
  | i, p :: rest =>
    match p.onAfterWatcherRestart with
    | none => arActions (i + 1) rest
    | some _ => Action.hookAfterRestart i :: arActions (i + 1) rest

/-- The full phase sequence of a completed restart cycle: all phase-3
hooks in registration order, all phase-4 hooks in registration order,
compiler invalidation (full reinitialisation first when the changed file
is the tracked tsconfig path, then the incremental compile), the link
start-or-restart, and the transition back to idle. -/
def expectedPhases (env : Env) (change : PostInitChangeEvent) : List PhaseEv :=
  sorPhases 0 env.plugins ++ brPhases 0 env.plugins ++
    (if change.file = env.tsConfigPath then [PhaseEv.cinit] else []) ++
    [PhaseEv.cchanged, PhaseEv.link, PhaseEv.idle]

/-- Split a path or pattern (a character list) at `/` separators into
segments, as the glob library does when matching path patterns. -/
def splitSlash : List Char → List (List Char)
  | [] => [[]]
  | '/' :: rest => [] :: splitSlash rest
  | c :: rest =>
    match splitSlash rest with
    | s :: ss => (c :: s) :: ss
    | [] => [[c]]

/-- Match one glob segment against one path segment, character-wise:
`*` matches any run of characters within the segment, `?` matches one
character, everything else is literal.  Models the segment matching of
the external glob library (picomatch, as used by anymatch) for the
pattern subset this repository uses. -/
def segMatch : List Char → List Char → Bool
  | [], [] => true
  | [], _ :: _ => false
  | '*' :: ps, [] => segMatch ps []
  | '*' :: ps, s :: ss => segMatch ps (s :: ss) || segMatch ('*' :: ps) ss
  | '?' :: _, [] => false
  | '?' :: ps, _ :: ss => segMatch ps ss
  | p :: ps, s :: ss => (p == s) && segMatch ps ss
  | _ :: _, [] => false
termination_by pat path => pat.length + path.length

/-- Match a list of glob segments against a list of path segments: a
`**` segment matches zero or more whole path segments; any other
segment must match exactly one path segment via `segMatch`. -/
def globSegsMatch : List (List Char) → List (List Char) → Bool
  | [], [] => true
  | [], _ :: _ => false
  | p :: ps, segs =>
    if p = ['*', '*'] then
      globSegsMatch ps segs ||
        (match segs with
         | [] => false
         | _ :: rest => globSegsMatch (p :: ps) rest)
    else
      match segs with
      | [] => false
      | s :: ss => segMatch p s && globSegsMatch ps ss
termination_by pats segs => pats.length + segs.length

/-- Whole-path glob match: split pattern and path on `/` and match
segment lists. -/
def globMatch (pat path : List Char) : Bool :=
  globSegsMatch (splitSlash pat) (splitSlash path)

/-- The anymatch library (as called by `createPathMatcher`): matchers
whose first character is `!` are negated globs; if any negated glob
matches the path the result is `false`, otherwise the result is whether
any positive matcher matches.  In particular, with no positive matcher
nothing matches. -/
def anymatch (matchers : List (List Char)) : List Char → Bool := fun path =>
  let negatedGlobs := (matchers.filter (fun m => m.head? == some '!')).map (List.drop 1)
  let patterns := matchers.filter (fun m => !(m.head? == some '!'))
  if negatedGlobs.any (fun g => globMatch g path) then false
  else patterns.any (fun g => globMatch g path)

/-- Parameter object of `createPathMatcher` (`{ toMatch?, toIgnore? }`). -/
structure PathMatcherParams where
  toMatch : Option (List (List Char))
  toIgnore : Option (List (List Char))

/-- `createPathMatcher`: defaults both lists to empty, prepends `!` to
every ignore pattern, concatenates allow then negated-ignore patterns,
and hands the combined list to anymatch. -/
def createPathMatcher (params : PathMatcherParams) : List Char → Bool :=
  let toAllow := params.toMatch.getD []
  let toIgnoreNeg := (params.toIgnore.map (fun l => l.map (fun pattern => '!' :: pattern))).getD []
  let matchers := toAllow ++ toIgnoreNeg
  anymatch matchers

/-- Modelled from the spec: the matcher semantics the specification
states for the Pattern Matcher — a path matches iff it satisfies at
least one allow pattern (or the allow list is empty, in which case all
paths are candidate) and it satisfies no deny pattern.  Used only to
compare the spec's words against `createPathMatcher`. -/
def specMatcherMatches (allow deny : List (List Char)) (path : List Char) : Bool :=
  (allow.isEmpty || allow.any (fun g => globMatch g path)) &&
    !(deny.any (fun g => globMatch g path))

/-- `listeners?.app?.ignoreFilePatterns ?? []` of one plugin. -/
def appIgnorePatterns (p : PluginDev) : List (List Char) :=
  ((p.addToWatcherSettings.listeners.bind (fun l => l.app)).bind
    (fun a => a.ignoreFilePatterns)).getD []

/-- The `reduce` building `pluginIgnoreContributions`: concatenation of
every plugin's app-listener ignore patterns. -/
def pluginIgnoreContributions (plugins : List PluginDev) : List (List Char) :=
  plugins.foldl (fun patterns p => patterns ++ appIgnorePatterns p) []

/-- The global listener's ignore matcher:
`createPathMatcher({ toMatch: pluginIgnoreContributions })`. -/
def isIgnoredByCoreListener (plugins : List PluginDev) : List Char → Bool :=
  createPathMatcher { toMatch := some (pluginIgnoreContributions plugins), toIgnore := none }

/-- A plugin's scoped listener matcher:
`createPathMatcher({ toMatch: ...allowFilePatterns, toIgnore: ...ignoreFilePatterns })`. -/
def isMatchedByPluginListener (p : PluginDev) : List Char → Bool :=
  createPathMatcher
    { toMatch := (p.addToWatcherSettings.listeners.bind (fun l => l.plugin)).bind
        (fun q => q.allowFilePatterns)
      toIgnore := (p.addToWatcherSettings.listeners.bind (fun l => l.plugin)).bind
        (fun q => q.ignoreFilePatterns) }

/-- Outcome of fanning one raw watch event out to the registered
listeners: whether the global (core) listener invoked `restart`, and for
each plugin whether its `onFileWatcherEvent` handler was invoked. -/
structure DispatchResult where
  restartInvoked : Bool
  delivered : List Bool

/-- Fan-out of one raw watch event, as `createWatcher` wires it: the
core listener drops the event iff the global ignore matcher matches the
file, and otherwise calls `restart`; independently, each plugin that
registered `onFileWatcherEvent` receives the event iff its own scoped
matcher matches the file. -/
def dispatchWatchEvent (plugins : List PluginDev) (file : List Char) : DispatchResult :=
  { restartInvoked := !(isIgnoredByCoreListener plugins file),
    delivered := plugins.map (fun p => p.hasOnFileWatcherEvent && isMatchedByPluginListener p file) }

namespace StartModule

/-- `layout.packageJson` as consumed here: only its `path` is read. -/
structure PackageJson where
  path : String

/-- `layout.app`: whether the app module exists and its path. -/
structure AppLayout where
  isPresent : Bool
  path : String

/-- The slice of `Layout` read by the start-module generator.
`sourceRelative` is the layout method of the same name, modelled as a
function field. -/
structure Layout where
  projectRoot : String
  sourceRoot : String
  buildOutputRelative : String
  packageJson : Option PackageJson
  app : AppLayout
  schemaModules : List String
  sourceRelative : String → String

/-- `internalStage: 'build' | 'dev'`. -/
inductive InternalStage
  | build
  | dev
deriving DecidableEq, Repr

/-- `StartModuleConfig` of the source; the two optional booleans keep
their JS truthiness semantics (`undefined` behaves as `false`). -/
structure StartModuleConfig where
  internalStage : InternalStage
  layout : Layout
  disableArtifactGeneration : Option Bool
  absoluteModuleImports : Option Bool
  runtimePluginNames : List String

/-- External pure helpers the generator calls, modelled as abstract
deterministic functions: the platform line terminator, common-tags
`stripIndent`, `resolveFrom(request, base)`, `Path.relative(from, to)`
and `stripExt`. -/
structure Ext where
  eol : String
  stripIndent : String → String
  resolveFrom : String → String → String
  pathRelative : String → String → String
  stripExt : String → String

/-- `START_MODULE_NAME` constant. -/
def START_MODULE_NAME : String := "index"

/-- `START_MODULE_HEADER` constant. -/
def START_MODULE_HEADER : String := "GENERATED NEXUS START MODULE"

/-- JS `String(boolean)` / template interpolation of a boolean. -/
def jsBool (b : Bool) : String := if b then "true" else "false"

/-- `printSideEffectsImport`. -/
def printSideEffectsImport (modulePath : String) : String :=
  "import \x27" ++ modulePath ++ "\x27"

/-- `calcSourceRootToModule`. -/
def calcSourceRootToModule (ext : Ext) (layout : Layout) (modulePath : String) : String :=
  ext.pathRelative layout.sourceRoot modulePath

/-- `relativeTranspiledImportPath`. -/
def relativeTranspiledImportPath (ext : Ext) (layout : Layout) (modulePath : String) : String :=
  "./" ++ ext.stripExt (calcSourceRootToModule ext layout modulePath)

/-- `printStaticImports`: the reduce over `layout.schemaModules`. -/
def printStaticImports (ext : Ext) (layout : Layout) (absolutePaths : Bool) : String :=
  layout.schemaModules.foldl
    (fun script modulePath =>
      let path := if absolutePaths then ext.stripExt modulePath
                  else relativeTranspiledImportPath ext layout modulePath
      script ++ "\n" ++ printSideEffectsImport path)
    ""

/-- `createStartModuleContent`, translated block by block from the
source.  The per-plugin import alias is `plugin_` followed by
`Math.random().toString().slice(2, 5)`; the stream of those random
draws is passed in as `rand`, indexed by the plugin's position, so the
function is the source's body with its sole impurity made explicit. -/
def createStartModuleContent (ext : Ext) (config : StartModuleConfig)
    (rand : Nat → String) : String :=
  let absImports := config.absoluteModuleImports.getD false
  let eol3 := ext.eol ++ ext.eol ++ ext.eol
  let content := "// " ++ START_MODULE_HEADER ++ "\n"
  let content := content ++ eol3 ++ ext.stripIndent
    ("process.env.NEXUS_SHOULD_GENERATE_ARTIFACTS = \x27" ++
      jsBool (!(config.disableArtifactGeneration.getD false)) ++ "\x27")
  let content :=
    if config.internalStage = InternalStage.dev then
      content ++ eol3 ++ ext.stripIndent "process.env.NEXUS_STAGE = \x27dev\x27"
    else content
  let content := content ++ eol3 ++ ext.stripIndent
    ("// Run framework initialization side-effects\n" ++
     "// Also, import the app for later use\n" ++
     "const app = require(\x22" ++
      (if absImports then ext.resolveFrom "nexus" config.layout.projectRoot else "nexus") ++
      "\x22).default")
  let content := content ++ eol3 ++ ext.stripIndent
    ("// Last resort error handling\n" ++
     "process.once(\x27uncaughtException\x27, error => \x7b\n" ++
     "  app.log.fatal(\x27uncaughtException\x27, \x7b error: error \x7d)\n" ++
     "  process.exit(1)\n\x7d)\n\n" ++
     "process.once(\x27unhandledRejection\x27, error => \x7b\n" ++
     "  app.log.fatal(\x27unhandledRejection\x27, \x7b error: error \x7d)\n" ++
     "  process.exit(1)\n\x7d)")
  let content :=
    match config.layout.packageJson with
    | some pj =>
      content ++ eol3 ++ ext.stripIndent
        ("// package.json is needed for plugin auto-import system.\n" ++
         "// On the Zeit Now platform, builds and dev copy source into\n" ++
         "// new directory. Copying follows paths found in source. Give one here\n" ++
         "// to package.json to make sure Zeit Now brings it along.\n" ++
         "require(\x27" ++
          (if absImports then pj.path
           else ext.pathRelative config.layout.buildOutputRelative pj.path) ++
          "\x27)")
    | none => content
  let staticImports := printStaticImports ext config.layout absImports
  let content :=
    if staticImports ≠ "" then
      content ++ eol3 ++ ext.stripIndent
        ("// Import the user\x27s schema modules\n" ++ staticImports)
    else content
  let content :=
    if config.layout.app.isPresent then
      content ++ eol3 ++ ext.stripIndent
        ("// Import the user\x27s app module\n" ++
         "require(\x22" ++
          (if absImports then ext.stripExt config.layout.app.path
           else "./" ++ ext.stripExt (config.layout.sourceRelative config.layout.app.path)) ++
          "\x22)")
    else content
  let content :=
    if config.runtimePluginNames.isEmpty then content
    else
      let aliasAndPluginNames := config.runtimePluginNames.enum.map
        (fun ip => ("plugin_" ++ rand ip.1, ip.2))
      let importsCode := String.intercalate ext.eol
        (aliasAndPluginNames.map (fun ap =>
          "import \x7b plugin as " ++ ap.1 ++ " \x7d from \x27" ++
            (if absImports then
              ext.resolveFrom ("nexus-plugin-" ++ ap.2) config.layout.projectRoot
            else "nexus-plugin-" ++ ap.2 ++ "/dist/runtime") ++ "\x27"))
      let usesCode := String.intercalate ext.eol
        (aliasAndPluginNames.map (fun ap =>
          "app.__use(\x27" ++ ap.2 ++ "\x27, " ++ ap.1 ++ ")"))
      content ++ eol3 ++ ext.stripIndent
        ("// Apply runtime plugins\n" ++ importsCode ++ "\n\n" ++ usesCode)
  content ++ eol3 ++ ext.stripIndent
    ("// Boot the server if the user did not already.\n" ++
     "if (app.__state.isWasServerStartCalled === false) \x7b\n" ++
     "  app.server.start()\n\x7d  ")

end StartModule

/-! Concrete fixtures used by the witnesses and counterexamples below. -/

/-- Empty watcher settings (a plugin contributing no patterns). -/
def noSettings : WatcherSettings :=
  { watchFilePatterns := none, listeners := none }

/-- Fixture: a plugin whose three lifecycle hooks are all present and
all succeed. -/
def c1Plug : PluginDev :=
  { onBeforeWatcherStartOrRestart := some (fun _ => HookRes.ok false)
    onBeforeWatcherRestart := some HookURes.ok
    onAfterWatcherRestart := some HookURes.ok
    hasOnFileWatcherEvent := false
    addToWatcherSettings := noSettings }

/-- Fixture: one well-behaved plugin, healthy link. -/
def c1EnvOk : Env :=
  { plugins := [c1Plug], tsConfigPath := "tsconfig.json", linkStartOrRestart := HookURes.ok }

/-- Fixture: one well-behaved plugin, failing link start-or-restart. -/
def c1EnvErr : Env :=
  { plugins := [c1Plug], tsConfigPath := "tsconfig.json", linkStartOrRestart := HookURes.err }

/-- Fixture: a plugin with a patch-returning before-start hook and a
before-restart hook. -/
def c2PlugA : PluginDev :=
  { onBeforeWatcherStartOrRestart := some (fun _ => HookRes.ok true)
    onBeforeWatcherRestart := some HookURes.ok
    onAfterWatcherRestart := none
    hasOnFileWatcherEvent := false
    addToWatcherSettings := noSettings }

/-- Fixture: a plugin with no hooks at all. -/
def c2PlugB : PluginDev :=
  { onBeforeWatcherStartOrRestart := none
    onBeforeWatcherRestart := some HookURes.ok
    onAfterWatcherRestart := none
    hasOnFileWatcherEvent := false
    addToWatcherSettings := noSettings }

/-- Fixture: two plugins, healthy link. -/
def c2Env : Env :=
  { plugins := [c2PlugA, c2PlugB], tsConfigPath := "tsconfig.json",
    linkStartOrRestart := HookURes.ok }

/-- Fixture: no plugins, failing link start-or-restart. -/
def c3Env : Env :=
  { plugins := [], tsConfigPath := "tsconfig.json", linkStartOrRestart := HookURes.err }

/-- Fixture: a plugin whose `onBeforeWatcherRestart` hook throws. -/
def c4A : PluginDev :=
  { onBeforeWatcherStartOrRestart := none
    onBeforeWatcherRestart := some HookURes.err
    onAfterWatcherRestart := none
    hasOnFileWatcherEvent := false
    addToWatcherSettings := noSettings }

/-- Fixture: a sibling plugin with well-behaved hooks in every phase. -/
def c4B : PluginDev :=
  { onBeforeWatcherStartOrRestart := some (fun _ => HookRes.ok false)
    onBeforeWatcherRestart := some HookURes.ok
    onAfterWatcherRestart := some HookURes.ok
    hasOnFileWatcherEvent := false
    addToWatcherSettings := noSettings }

/-- Fixture: throwing plugin followed by a healthy sibling, healthy link. -/
def c4Env : Env :=
  { plugins := [c4A, c4B], tsConfigPath := "tsconfig.json",
    linkStartOrRestart := HookURes.ok }

/-- Fixture: no plugins, healthy link, tracked tsconfig path. -/
def c5Env : Env :=
  { plugins := [], tsConfigPath := "tsconfig.json", linkStartOrRestart := HookURes.ok }

/-- Fixture: a plugin with all hooks succeeding (used for a full
successful restart cycle). -/
def c7Plug : PluginDev :=
  { onBeforeWatcherStartOrRestart := some (fun _ => HookRes.ok false)
    onBeforeWatcherRestart := some HookURes.ok
    onAfterWatcherRestart := some HookURes.ok
    hasOnFileWatcherEvent := false
    addToWatcherSettings := noSettings }

/-- Fixture: one well-behaved plugin, healthy link. -/
def c7Env : Env :=
  { plugins := [c7Plug], tsConfigPath := "tsconfig.json", linkStartOrRestart := HookURes.ok }

/-- Fixture: a plugin with both pre-restart hooks present. -/
def c8Plug : PluginDev :=
  { onBeforeWatcherStartOrRestart := some (fun _ => HookRes.ok false)
    onBeforeWatcherRestart := some HookURes.ok
    onAfterWatcherRestart := some HookURes.ok
    hasOnFileWatcherEvent := false
    addToWatcherSettings := noSettings }

/-- Fixture: one plugin with a full hook set, healthy link. -/
def c8Env : Env :=
  { plugins := [c8Plug], tsConfigPath := "tsconfig.json", linkStartOrRestart := HookURes.ok }

/-- Fixture: a plugin whose scoped listener allows `src/**/*.ts` while
it also contributes `src/**` to the global app-ignore set. -/
def c9Plug : PluginDev :=
  { onBeforeWatcherStartOrRestart := none
    onBeforeWatcherRestart := none
    onAfterWatcherRestart := none
    hasOnFileWatcherEvent := true
    addToWatcherSettings :=
      { watchFilePatterns := none
        listeners := some
          { app := some { ignoreFilePatterns := some ["src/**".toList] }
            plugin := some
              { allowFilePatterns := some ["src/**/*.ts".toList]
                ignoreFilePatterns := none } } } }

/-- Fixture: simple deterministic stand-ins for the external helpers of
the start-module generator. -/
def c10Ext : StartModule.Ext :=
  { eol := "\n", stripIndent := id,
    resolveFrom := fun request base => base ++ "/node_modules/" ++ request,
    pathRelative := fun _ toPath => toPath, stripExt := id }

/-- Fixture: a minimal layout. -/
def c10Layout : StartModule.Layout :=
  { projectRoot := "/p", sourceRoot := "/p/src", buildOutputRelative := "dist",
    packageJson := none, app := { isPresent := false, path := "" },
    schemaModules := [], sourceRelative := id }

/-- Fixture: a config with one runtime plugin. -/
def c10Cfg : StartModule.StartModuleConfig :=
  { internalStage := StartModule.InternalStage.build, layout := c10Layout,
    disableArtifactGeneration := none, absoluteModuleImports := none,
    runtimePluginNames := ["foo"] }

/-- Fixture: a config with no runtime plugins. -/
def c10CfgEmpty : StartModule.StartModuleConfig :=
  { internalStage := StartModule.InternalStage.dev, layout := c10Layout,
    disableArtifactGeneration := none, absoluteModuleImports := none,
    runtimePluginNames := [] }

/-! Helper lemmas about the hook loops and the branches of `restart`
and `initStart`. -/

/-- Every action emitted by the before-start-or-restart loop is a hook
invocation or an `updateOptions` call. -/
theorem sor_trace_mem (change : ChangeEvent) (i : Nat) (l : List PluginDev) :
    ∀ a ∈ (runBeforeSORHooks change i l).1,
      (∃ j, a = Action.hookBeforeStartOrRestart j) ∨ ∃ j, a = Action.linkUpdateOptions j := by
  induction l generalizing i with
  | nil => intro a ha; simp [runBeforeSORHooks] at ha
  | cons p rest ih =>
    intro a ha
    cases hp : p.onBeforeWatcherStartOrRestart with
    | none => exact ih (i + 1) a (by simpa [runBeforeSORHooks, hp] using ha)
    | some f =>
      cases hf : f change with
      | err =>
        simp [runBeforeSORHooks, hp, hf] at ha
        exact Or.inl ⟨i, ha⟩
      | ok patch =>
        simp [runBeforeSORHooks, hp, hf] at ha
        rcases ha with ha | ha | ha
        · exact Or.inl ⟨i, ha⟩
        · rcases patch with _ | _
          · simp at ha
          · simp at ha; exact Or.inr ⟨i, ha⟩
        · exact ih (i + 1) a ha

/-- Every action emitted by the before-restart loop is a
`hookBeforeRestart` invocation. -/
theorem br_trace_mem (i : Nat) (l : List PluginDev) :
    ∀ a ∈ (runBeforeRestartHooks i l).1, ∃ j, a = Action.hookBeforeRestart j := by
  induction l generalizing i with
  | nil => intro a ha; simp [runBeforeRestartHooks] at ha
  | cons p rest ih =>
    intro a ha
    cases hp : p.onBeforeWatcherRestart with
    | none => exact ih (i + 1) a (by simpa [runBeforeRestartHooks, hp] using ha)
    | some u =>
      cases u with
      | ok =>
        simp [runBeforeRestartHooks, hp] at ha
        rcases ha with ha | ha
        · exact ⟨i, ha⟩
        · exact ih (i + 1) a ha
      | err =>
        simp [runBeforeRestartHooks, hp] at ha
        exact ⟨i, ha⟩

/-- Every action emitted by the after-restart loop is a
`hookAfterRestart` invocation. -/
theorem ar_trace_mem (i : Nat) (l : List PluginDev) :
    ∀ a ∈ (runAfterRestartHooks i l).1, ∃ j, a = Action.hookAfterRestart j := by
  induction l generalizing i with
  | nil => intro a ha; simp [runAfterRestartHooks] at ha
  | cons p rest ih =>
    intro a ha
    cases hp : p.onAfterWatcherRestart with
    | none => exact ih (i + 1) a (by simpa [runAfterRestartHooks, hp] using ha)
    | some u =>
      cases u with
      | ok =>
        simp [runAfterRestartHooks, hp] at ha
        rcases ha with ha | ha
        · exact ⟨i, ha⟩
        · exact ih (i + 1) a ha
      | err =>
        simp [runAfterRestartHooks, hp] at ha
        exact ⟨i, ha⟩

/-- With all before-start-or-restart hooks succeeding the loop reports
no error. -/
theorem sor_ok_of_all (change : ChangeEvent) (i : Nat) (l : List PluginDev)
    (h : l.all (pluginSorOk change) = true) :
    (runBeforeSORHooks change i l).2 = false := by
  induction l generalizing i with
  | nil => simp [runBeforeSORHooks]
  | cons p rest ih =>
    simp only [List.all_cons, Bool.and_eq_true] at h
    cases hp : p.onBeforeWatcherStartOrRestart with
    | none => simpa [runBeforeSORHooks, hp] using ih (i + 1) h.2
    | some f =>
      cases hf : f change with
      | err => simp [pluginSorOk, hp, hf] at h
      | ok patch => simpa [runBeforeSORHooks, hp, hf] using ih (i + 1) h.2

/-- With all before-restart hooks succeeding the loop reports no
error. -/
theorem br_ok_of_all (i : Nat) (l : List PluginDev) (h : l.all pluginBrOk = true) :
    (runBeforeRestartHooks i l).2 = false := by
  induction l generalizing i with
  | nil => simp [runBeforeRestartHooks]
  | cons p rest ih =>
    simp only [List.all_cons, Bool.and_eq_true] at h
    cases hp : p.onBeforeWatcherRestart with
    | none => simpa [runBeforeRestartHooks, hp] using ih (i + 1) h.2
    | some u =>
      cases u with
      | ok => simpa [runBeforeRestartHooks, hp] using ih (i + 1) h.2
      | err => simp [pluginBrOk, hp] at h

/-- With all after-restart hooks succeeding the loop reports no error. -/
theorem ar_ok_of_all (i : Nat) (l : List PluginDev) (h : l.all pluginArOk = true) :
    (runAfterRestartHooks i l).2 = false := by
  induction l generalizing i with
  | nil => simp [runAfterRestartHooks]
  | cons p rest ih =>
    simp only [List.all_cons, Bool.and_eq_true] at h
    cases hp : p.onAfterWatcherRestart with
    | none => simpa [runAfterRestartHooks, hp] using ih (i + 1) h.2
    | some u =>
      cases u with
      | ok => simpa [runAfterRestartHooks, hp] using ih (i + 1) h.2
      | err => simp [pluginArOk, hp] at h

/-- Phase projection of an error-free before-start-or-restart loop: the
registration-ordered list of present hooks. -/
theorem sor_proj_of_ok (change : ChangeEvent) (i : Nat) (l : List PluginDev)
    (h : (runBeforeSORHooks change i l).2 = false) :
    (runBeforeSORHooks change i l).1.filterMap phaseTag = sorPhases i l := by
  induction l generalizing i with
  | nil => simp [runBeforeSORHooks, sorPhases]
  | cons p rest ih =>
    cases hp : p.onBeforeWatcherStartOrRestart with
    | none =>
      simp only [runBeforeSORHooks, hp] at h ⊢
      simpa [sorPhases, hp] using ih (i + 1) h
    | some f =>
      cases hf : f change with
      | err => simp [runBeforeSORHooks, hp, hf] at h
      | ok patch =>
        simp only [runBeforeSORHooks, hp, hf] at h ⊢
        cases patch with
        | false =>
          simp [sorPhases, hp, phaseTag, List.filterMap_cons, ih (i + 1) h]
        | true =>
          simp [sorPhases, hp, phaseTag, List.filterMap_cons, List.filterMap_append,
            ih (i + 1) h]

/-- Phase projection of an error-free before-restart loop. -/
theorem br_proj_of_ok (i : Nat) (l : List PluginDev)
    (h : (runBeforeRestartHooks i l).2 = false) :
    (runBeforeRestartHooks i l).1.filterMap phaseTag = brPhases i l := by
  induction l generalizing i with
  | nil => simp [runBeforeRestartHooks, brPhases]
  | cons p rest ih =>
    cases hp : p.onBeforeWatcherRestart with
    | none =>
      simp only [runBeforeRestartHooks, hp] at h ⊢
      simpa [brPhases, hp] using ih (i + 1) h
    | some u =>
      cases u with
      | ok =>
        simp only [runBeforeRestartHooks, hp] at h ⊢
        simp [brPhases, hp, phaseTag, List.filterMap_cons, ih (i + 1) h]
      | err => simp [runBeforeRestartHooks, hp] at h

/-- The phase projection of the before-start-or-restart loop extends to
the full registration-ordered hook list, whether or not a hook threw. -/
theorem sor_proj_isPre (change : ChangeEvent) (i : Nat) (l : List PluginDev) :
    ∃ t, (runBeforeSORHooks change i l).1.filterMap phaseTag ++ t = sorPhases i l := by
  induction l generalizing i with
  | nil => exact ⟨[], by simp [runBeforeSORHooks, sorPhases]⟩
  | cons p rest ih =>
    cases hp : p.onBeforeWatcherStartOrRestart with
    | none =>
      obtain ⟨t, ht⟩ := ih (i + 1)
      exact ⟨t, by simpa [runBeforeSORHooks, sorPhases, hp] using ht⟩
    | some f =>
      cases hf : f change with
      | err =>
        exact ⟨sorPhases (i + 1) rest, by
          simp [runBeforeSORHooks, sorPhases, hp, hf, phaseTag]⟩
      | ok patch =>
        obtain ⟨t, ht⟩ := ih (i + 1)
        refine ⟨t, ?_⟩
        cases patch with
        | false =>
          simp [runBeforeSORHooks, sorPhases, hp, hf, phaseTag, List.filterMap_cons]
          simpa using ht
        | true =>
          simp [runBeforeSORHooks, sorPhases, hp, hf, phaseTag, List.filterMap_cons,
            List.filterMap_append]
          simpa using ht

/-- The phase projection of the before-restart loop extends to the full
registration-ordered hook list, whether or not a hook threw. -/
theorem br_proj_isPre (i : Nat) (l : List PluginDev) :
    ∃ t, (runBeforeRestartHooks i l).1.filterMap phaseTag ++ t = brPhases i l := by
  induction l generalizing i with
  | nil => exact ⟨[], by simp [runBeforeRestartHooks, brPhases]⟩
  | cons p rest ih =>
    cases hp : p.onBeforeWatcherRestart with
    | none =>
      obtain ⟨t, ht⟩ := ih (i + 1)
      exact ⟨t, by simpa [runBeforeRestartHooks, brPhases, hp] using ht⟩
    | some u =>
      cases u with
      | ok =>
        obtain ⟨t, ht⟩ := ih (i + 1)
        refine ⟨t, ?_⟩
        simp [runBeforeRestartHooks, brPhases, hp, phaseTag, List.filterMap_cons]
        simpa using ht
      | err =>
        exact ⟨brPhases (i + 1) rest, by
          simp [runBeforeRestartHooks, brPhases, hp, phaseTag]⟩

/-- The trace of an error-free after-restart loop is exactly the
registration-ordered list of present hooks. -/
theorem ar_trace_of_ok (i : Nat) (l : List PluginDev)
    (h : (runAfterRestartHooks i l).2 = false) :
    (runAfterRestartHooks i l).1 = arActions i l := by
  induction l generalizing i with
  | nil => simp [runAfterRestartHooks, arActions]
  | cons p rest ih =>
    cases hp : p.onAfterWatcherRestart with
    | none =>
      simp only [runAfterRestartHooks, hp] at h ⊢
      simpa [arActions, hp] using ih (i + 1) h
    | some u =>
      cases u with
      | ok =>
        simp only [runAfterRestartHooks, hp] at h ⊢
        simp [arActions, hp, ih (i + 1) h]
      | err => simp [runAfterRestartHooks, hp] at h

/-- The hook loops never write the busy-guard flag. -/
theorem setR_not_mem_sor (change : ChangeEvent) (i : Nat) (l : List PluginDev) (b : Bool) :
    Action.setRestarting b ∉ (runBeforeSORHooks change i l).1 := by
  intro hmem
  rcases sor_trace_mem change i l _ hmem with ⟨j, hj⟩ | ⟨j, hj⟩ <;> simp at hj

/-- The before-restart loop never writes the busy-guard flag. -/
theorem setR_not_mem_br (i : Nat) (l : List PluginDev) (b : Bool) :
    Action.setRestarting b ∉ (runBeforeRestartHooks i l).1 := by
  intro hmem
  rcases br_trace_mem i l _ hmem with ⟨j, hj⟩
  simp at hj

/-- The hook loops never call the compiler. -/
theorem compile_not_mem_sor (change : ChangeEvent) (i : Nat) (l : List PluginDev) :
    Action.compilerInit ∉ (runBeforeSORHooks change i l).1 := by
  intro hmem
  rcases sor_trace_mem change i l _ hmem with ⟨j, hj⟩ | ⟨j, hj⟩ <;> simp at hj

/-- The before-restart loop never calls the compiler. -/
theorem compile_not_mem_br (i : Nat) (l : List PluginDev) :
    Action.compilerInit ∉ (runBeforeRestartHooks i l).1 := by
  intro hmem
  rcases br_trace_mem i l _ hmem with ⟨j, hj⟩
  simp at hj

/-- The before-start-or-restart loop contains no before-restart hook
invocation. -/
theorem br_not_mem_sor (change : ChangeEvent) (i : Nat) (l : List PluginDev) (j : Nat) :
    Action.hookBeforeRestart j ∉ (runBeforeSORHooks change i l).1 := by
  intro hmem
  rcases sor_trace_mem change i l _ hmem with ⟨k, hk⟩ | ⟨k, hk⟩ <;> simp at hk

/-- The before-start-or-restart loop performs no incremental compile. -/
theorem cchanged_not_mem_sor (change : ChangeEvent) (i : Nat) (l : List PluginDev) (f : String) :
    Action.compileChanged f ∉ (runBeforeSORHooks change i l).1 := by
  intro hmem
  rcases sor_trace_mem change i l _ hmem with ⟨k, hk⟩ | ⟨k, hk⟩ <;> simp at hk

/-- The hook loops never pause the watcher. -/
theorem pause_not_mem_sor (change : ChangeEvent) (i : Nat) (l : List PluginDev) :
    Action.watcherPause ∉ (runBeforeSORHooks change i l).1 := by
  intro hmem
  rcases sor_trace_mem change i l _ hmem with ⟨j, hj⟩ | ⟨j, hj⟩ <;> simp at hj

/-- The before-restart loop never pauses the watcher. -/
theorem pause_not_mem_br (i : Nat) (l : List PluginDev) :
    Action.watcherPause ∉ (runBeforeRestartHooks i l).1 := by
  intro hmem
  rcases br_trace_mem i l _ hmem with ⟨j, hj⟩
  simp at hj

/-- The hook loops never resume the watcher. -/
theorem resume_not_mem_sor (change : ChangeEvent) (i : Nat) (l : List PluginDev) :
    Action.watcherResume ∉ (runBeforeSORHooks change i l).1 := by
  intro hmem
  rcases sor_trace_mem change i l _ hmem with ⟨j, hj⟩ | ⟨j, hj⟩ <;> simp at hj

/-- The before-restart loop never resumes the watcher. -/
theorem resume_not_mem_br (i : Nat) (l : List PluginDev) :
    Action.watcherResume ∉ (runBeforeRestartHooks i l).1 := by
  intro hmem
  rcases br_trace_mem i l _ hmem with ⟨j, hj⟩
  simp at hj

/-- Phase projection of the optional full-reinitialisation block. -/
theorem ifpart_proj (c : Prop) [Decidable c] :
    (if c then [Action.log "reinitializing TS compilation", Action.compilerInit]
     else []).filterMap phaseTag = if c then [PhaseEv.cinit] else [] := by
  by_cases hc : c <;> simp [hc, phaseTag]

/-- Branch of `restart`: a before-start-or-restart hook threw. -/
theorem restart_eq_sor_err (env : Env) (change : PostInitChangeEvent) (s : WState)
    (hs : s.restarting = false)
    (h1 : (runBeforeSORHooks (toChangeEvent change) 0 env.plugins).2 = true) :
    restart env change s =
      { trace := [Action.setRestarting true, Action.clearConsole,
          Action.log "hook beforeWatcherStartOrRestart"] ++
          (runBeforeSORHooks (toChangeEvent change) 0 env.plugins).1,
        state := { s with restarting := true }, error := true } := by
  simp [restart, hs, h1]

/-- Branch of `restart`: a before-restart hook threw. -/
theorem restart_eq_br_err (env : Env) (change : PostInitChangeEvent) (s : WState)
    (hs : s.restarting = false)
    (h1 : (runBeforeSORHooks (toChangeEvent change) 0 env.plugins).2 = false)
    (h2 : (runBeforeRestartHooks 0 env.plugins).2 = true) :
    restart env change s =
      { trace := [Action.setRestarting true, Action.clearConsole,
          Action.log "hook beforeWatcherStartOrRestart"] ++
          (runBeforeSORHooks (toChangeEvent change) 0 env.plugins).1 ++
          [Action.log "hook beforeWatcherRestart"] ++
          (runBeforeRestartHooks 0 env.plugins).1,
        state := { s with restarting := true }, error := true } := by
  simp [restart, hs, h1, h2]

/-- Branch of `restart`: hooks succeeded, `link.startOrRestart`
rejected. -/
theorem restart_eq_link_err (env : Env) (change : PostInitChangeEvent) (s : WState)
    (hs : s.restarting = false)
    (h1 : (runBeforeSORHooks (toChangeEvent change) 0 env.plugins).2 = false)
    (h2 : (runBeforeRestartHooks 0 env.plugins).2 = false)
    (hl : env.linkStartOrRestart = HookURes.err) :
    restart env change s =
      { trace := [Action.setRestarting true, Action.clearConsole,
          Action.log "hook beforeWatcherStartOrRestart"] ++
          (runBeforeSORHooks (toChangeEvent change) 0 env.plugins).1 ++
          [Action.log "hook beforeWatcherRestart"] ++
          (runBeforeRestartHooks 0 env.plugins).1 ++
          [Action.log "restarting"] ++
          (if change.file = env.tsConfigPath then
            [Action.log "reinitializing TS compilation", Action.compilerInit]
          else []) ++
          [Action.compileChanged change.file, Action.linkStartOrRestart],
        state := { s with restarting := true }, error := true } := by
  simp [restart, hs, h1, h2, hl]

/-- Branch of `restart`: every step succeeded. -/
theorem restart_eq_ok (env : Env) (change : PostInitChangeEvent) (s : WState)
    (hs : s.restarting = false)
    (h1 : (runBeforeSORHooks (toChangeEvent change) 0 env.plugins).2 = false)
    (h2 : (runBeforeRestartHooks 0 env.plugins).2 = false)
    (hl : env.linkStartOrRestart = HookURes.ok) :
    restart env change s =
      { trace := [Action.setRestarting true, Action.clearConsole,
          Action.log "hook beforeWatcherStartOrRestart"] ++
          (runBeforeSORHooks (toChangeEvent change) 0 env.plugins).1 ++
          [Action.log "hook beforeWatcherRestart"] ++
          (runBeforeRestartHooks 0 env.plugins).1 ++
          [Action.log "restarting"] ++
          (if change.file = env.tsConfigPath then
            [Action.log "reinitializing TS compilation", Action.compilerInit]
          else []) ++
          [Action.compileChanged change.file, Action.linkStartOrRestart] ++
          [Action.setRestarting false],
        state := { s with restarting := false }, error := false } := by
  simp [restart, hs, h1, h2, hl]

/-- Branch of `initStart`: a before-start-or-restart hook threw. -/
theorem initStart_eq_sor_err (env : Env) (s : WState)
    (h1 : (runBeforeSORHooks ChangeEvent.init 0 env.plugins).2 = true) :
    initStart env s =
      { trace := [Action.setRestarting true, Action.clearConsole] ++
          (runBeforeSORHooks ChangeEvent.init 0 env.plugins).1,
        state := { s with restarting := true }, error := true } := by
  simp [initStart, h1]

/-- Branch of `initStart`: hooks succeeded, the link rejected. -/
theorem initStart_eq_link_err (env : Env) (s : WState)
    (h1 : (runBeforeSORHooks ChangeEvent.init 0 env.plugins).2 = false)
    (hl : env.linkStartOrRestart = HookURes.err) :
    initStart env s =
      { trace := [Action.setRestarting true, Action.clearConsole] ++
          (runBeforeSORHooks ChangeEvent.init 0 env.plugins).1 ++
          [Action.linkStartOrRestart],
        state := { s with restarting := true }, error := true } := by
  simp [initStart, h1, hl]

/-- Branch of `initStart`: every step succeeded. -/
theorem initStart_eq_ok (env : Env) (s : WState)
    (h1 : (runBeforeSORHooks ChangeEvent.init 0 env.plugins).2 = false)
    (hl : env.linkStartOrRestart = HookURes.ok) :
    initStart env s =
      { trace := [Action.setRestarting true, Action.clearConsole] ++
          (runBeforeSORHooks ChangeEvent.init 0 env.plugins).1 ++
          [Action.linkStartOrRestart, Action.setRestarting false],
        state := { s with restarting := false }, error := false } := by
  simp [initStart, h1, hl]

/-- Dropping the `!` that `createPathMatcher` prepended recovers the
original ignore patterns. -/
theorem negmap_drop (d : List (List Char)) :
    (d.map (fun pattern => '!' :: pattern)).map (List.drop 1) = d := by
  induction d with
  | nil => rfl
  | cons a t ih => simp [ih]

/-! Claim theorems. -/

/-- C1 (amended): a call to `restart` made while the `restarting` flag is
true only logs and returns — trace is exactly the log line, the state is
unchanged and no hook, compiler or link action occurs — so at most one
restart cycle is in flight; and every accepted cycle that completes
without error sets the flag true exactly once and back to false exactly
once, ending idle.  (A cycle in which a hook or the link errors leaves
the flag true; see the counterexample.) -/
theorem restart_busy_guard :
    (∀ (env : Env) (change : PostInitChangeEvent) (s : WState), s.restarting = true →
      restart env change s =
        { trace := [Action.log "restart already in progress"], state := s, error := false })
    ∧ (∀ (env : Env) (change : PostInitChangeEvent) (s : WState), s.restarting = false →
        (restart env change s).error = false →
        (restart env change s).trace.count (Action.setRestarting true) = 1
        ∧ (restart env change s).trace.count (Action.setRestarting false) = 1
        ∧ (restart env change s).state.restarting = false) := by
  constructor
  · intro env change s hs
    simp [restart, hs]
  · intro env change s hs herr
    simp only [restart, hs] at herr ⊢
    cases h1 : (runBeforeSORHooks (toChangeEvent change) 0 env.plugins).2 with
    | true => simp [h1] at herr
    | false =>
      simp only [h1] at herr ⊢
      cases h2 : (runBeforeRestartHooks 0 env.plugins).2 with
      | true => simp [h2] at herr
      | false =>
        simp only [h2] at herr ⊢
        cases hl : env.linkStartOrRestart with
        | err => simp [hl] at herr
        | ok =>
          simp only [hl]
          refine ⟨?_, ?_, rfl⟩ <;>
          · by_cases hts : change.file = env.tsConfigPath <;>
              simp [hts, List.count_append, List.count_cons,
                List.count_eq_zero.mpr (setR_not_mem_sor (toChangeEvent change) 0 env.plugins _),
                List.count_eq_zero.mpr (setR_not_mem_br 0 env.plugins _)]

/-- C1 witness: on a concrete one-plugin environment, a call made while
busy is the exact logged no-op, and a successful accepted cycle flips
the flag up once and down once. -/
theorem restart_busy_guard_witness :
    (restart c1EnvOk (PostInitChangeEvent.watch ChokEventType.change "a.ts")
        { restarting := true, paused := false } =
      { trace := [Action.log "restart already in progress"],
        state := { restarting := true, paused := false }, error := false })
    ∧ ((restart c1EnvOk (PostInitChangeEvent.watch ChokEventType.change "a.ts")
        { restarting := false, paused := false }).trace.count (Action.setRestarting true) = 1
      ∧ (restart c1EnvOk (PostInitChangeEvent.watch ChokEventType.change "a.ts")
        { restarting := false, paused := false }).trace.count (Action.setRestarting false) = 1
      ∧ (restart c1EnvOk (PostInitChangeEvent.watch ChokEventType.change "a.ts")
        { restarting := false, paused := false }).state.restarting = false) :=
  ⟨restart_busy_guard.1 c1EnvOk (PostInitChangeEvent.watch ChokEventType.change "a.ts")
      { restarting := true, paused := false } rfl,
   restart_busy_guard.2 c1EnvOk (PostInitChangeEvent.watch ChokEventType.change "a.ts")
      { restarting := false, paused := false } rfl (by decide)⟩

/-- C1 counterexample: an accepted restart cycle in which
`link.startOrRestart` rejects never writes the flag back to false — the
cycle ends with `restarting = true` — refuting the claim that every
accepted cycle transitions the flag back to false exactly once. -/
theorem restart_flag_stuck_cex :
    (restart c1EnvErr (PostInitChangeEvent.watch ChokEventType.change "a.ts")
      { restarting := false, paused := false }).trace.count (Action.setRestarting false) = 0
    ∧ (restart c1EnvErr (PostInitChangeEvent.watch ChokEventType.change "a.ts")
      { restarting := false, paused := false }).state.restarting = true := by
  decide

/-- C2: for every accepted restart cycle the phase-level projection of
the emitted trace follows the fixed total order — all
`onBeforeWatcherStartOrRestart` hooks in registration order, then all
`onBeforeWatcherRestart` hooks in registration order, then compiler
invalidation (full reinitialisation first when the changed file is the
tracked tsconfig path), then the link start-or-restart, then the
transition back to idle: the projection is always an initial segment of
that sequence, and is exactly that sequence when the cycle completes
without error.  In particular every phase-3 hook precedes every phase-4
hook, and all phase-4 hooks precede the process-restart request. -/
theorem restart_phase_order (env : Env) (change : PostInitChangeEvent) (s : WState)
    (hs : s.restarting = false) :
    (∃ t, (restart env change s).trace.filterMap phaseTag ++ t = expectedPhases env change)
    ∧ ((restart env change s).error = false →
        (restart env change s).trace.filterMap phaseTag = expectedPhases env change) := by
  cases h1 : (runBeforeSORHooks (toChangeEvent change) 0 env.plugins).2 with
  | true =>
    rw [restart_eq_sor_err env change s hs h1]
    constructor
    · obtain ⟨t0, ht0⟩ := sor_proj_isPre (toChangeEvent change) 0 env.plugins
      refine ⟨t0 ++ (brPhases 0 env.plugins ++
        ((if change.file = env.tsConfigPath then [PhaseEv.cinit] else []) ++
          [PhaseEv.cchanged, PhaseEv.link, PhaseEv.idle])), ?_⟩
      simp only [expectedPhases, List.filterMap_append, List.append_assoc]
      simp [phaseTag]
      rw [← List.append_assoc, ht0]
    · intro h; simp at h
  | false =>
    cases h2 : (runBeforeRestartHooks 0 env.plugins).2 with
    | true =>
      rw [restart_eq_br_err env change s hs h1 h2]
      constructor
      · obtain ⟨t0, ht0⟩ := br_proj_isPre 0 env.plugins
        refine ⟨t0 ++
          ((if change.file = env.tsConfigPath then [PhaseEv.cinit] else []) ++
            [PhaseEv.cchanged, PhaseEv.link, PhaseEv.idle]), ?_⟩
        simp only [expectedPhases, List.filterMap_append, List.append_assoc]
        simp [phaseTag, sor_proj_of_ok (toChangeEvent change) 0 env.plugins h1]
        rw [← List.append_assoc, ht0]
      · intro h; simp at h
    | false =>
      cases hl : env.linkStartOrRestart with
      | err =>
        rw [restart_eq_link_err env change s hs h1 h2 hl]
        constructor
        · refine ⟨[PhaseEv.idle], ?_⟩
          simp only [expectedPhases, List.filterMap_append, List.append_assoc]
          simp [phaseTag, sor_proj_of_ok (toChangeEvent change) 0 env.plugins h1,
            br_proj_of_ok 0 env.plugins h2, ifpart_proj]
        · intro h; simp at h
      | ok =>
        rw [restart_eq_ok env change s hs h1 h2 hl]
        constructor
        · refine ⟨[], ?_⟩
          simp only [expectedPhases, List.filterMap_append, List.append_assoc]
          simp [phaseTag, sor_proj_of_ok (toChangeEvent change) 0 env.plugins h1,
            br_proj_of_ok 0 env.plugins h2, ifpart_proj]
        · intro _
          simp only [expectedPhases, List.filterMap_append, List.append_assoc]
          simp [phaseTag, sor_proj_of_ok (toChangeEvent change) 0 env.plugins h1,
            br_proj_of_ok 0 env.plugins h2, ifpart_proj]

/-- C2 witness: the full phase order holds on a concrete two-plugin
cycle that completes without error. -/
theorem restart_phase_order_witness :
    (restart c2Env (PostInitChangeEvent.watch ChokEventType.change "a.ts")
      { restarting := false, paused := false }).trace.filterMap phaseTag =
    expectedPhases c2Env (PostInitChangeEvent.watch ChokEventType.change "a.ts") :=
  (restart_phase_order c2Env (PostInitChangeEvent.watch ChokEventType.change "a.ts")
    { restarting := false, paused := false } rfl).2 (by decide)

/-- C3 (amended): when `link.startOrRestart` rejects during an accepted
cycle whose hooks all succeed, the error propagates out of the cycle,
but the busy-guard is NOT released — `restarting` stays true, so every
subsequent `restart` call is dropped as "already in progress" rather
than accepted. -/
theorem link_failure_guard_not_released (env : Env) (change : PostInitChangeEvent) (s : WState)
    (hs : s.restarting = false)
    (hsor : allSorOk (toChangeEvent change) env.plugins = true)
    (hbr : allBrOk env.plugins = true)
    (hl : env.linkStartOrRestart = HookURes.err) :
    (restart env change s).error = true
    ∧ (restart env change s).state.restarting = true
    ∧ ∀ change2 : PostInitChangeEvent,
        restart env change2 ((restart env change s).state) =
          { trace := [Action.log "restart already in progress"],
            state := (restart env change s).state, error := false } := by
  have h1 := sor_ok_of_all (toChangeEvent change) 0 env.plugins hsor
  have h2 := br_ok_of_all 0 env.plugins hbr
  rw [restart_eq_link_err env change s hs h1 h2 hl]
  refine ⟨rfl, rfl, ?_⟩
  intro change2
  simp [restart]

/-- C3 witness: concrete failing-link environment with no plugins. -/
theorem link_failure_guard_not_released_witness :
    (restart c3Env (PostInitChangeEvent.watch ChokEventType.change "a.ts")
      { restarting := false, paused := false }).error = true
    ∧ (restart c3Env (PostInitChangeEvent.watch ChokEventType.change "a.ts")
      { restarting := false, paused := false }).state.restarting = true
    ∧ ∀ change2 : PostInitChangeEvent,
        restart c3Env change2 ((restart c3Env
          (PostInitChangeEvent.watch ChokEventType.change "a.ts")
          { restarting := false, paused := false }).state) =
          { trace := [Action.log "restart already in progress"],
            state := (restart c3Env (PostInitChangeEvent.watch ChokEventType.change "a.ts")
              { restarting := false, paused := false }).state, error := false } :=
  link_failure_guard_not_released c3Env
    (PostInitChangeEvent.watch ChokEventType.change "a.ts")
    { restarting := false, paused := false } rfl (by decide) (by decide) rfl

/-- C3 counterexample: after a failed `link.startOrRestart` the state
has `restarting = true` and the next `restart` call is dropped —
refuting the claim that the busy-guard returns to false on this error
path so that a subsequent call is accepted. -/
theorem link_failure_cex :
    (restart c3Env (PostInitChangeEvent.watch ChokEventType.change "a.ts")
      { restarting := false, paused := false }).error = true
    ∧ (restart c3Env (PostInitChangeEvent.watch ChokEventType.change "a.ts")
      { restarting := false, paused := false }).state.restarting = true
    ∧ restart c3Env (PostInitChangeEvent.plugin "b.ts")
        ((restart c3Env (PostInitChangeEvent.watch ChokEventType.change "a.ts")
          { restarting := false, paused := false }).state) =
      { trace := [Action.log "restart already in progress"],
        state := { restarting := true, paused := false }, error := false } := by
  decide

/-- C4 (amended): plugin hook errors are NOT isolated.  When the first
plugin's `onBeforeWatcherRestart` hook throws (and the
start-or-restart phase succeeded), the error propagates out of the
cycle, no sibling plugin's hook in the same phase is invoked, the link
restart is never requested, and the busy-guard is left set. -/
theorem plugin_hook_error_not_isolated (env : Env) (A : PluginDev) (rest : List PluginDev)
    (change : PostInitChangeEvent) (s : WState)
    (hp : env.plugins = A :: rest)
    (hs : s.restarting = false)
    (hbr : A.onBeforeWatcherRestart = some HookURes.err)
    (hsor : allSorOk (toChangeEvent change) env.plugins = true) :
    (restart env change s).error = true
    ∧ (restart env change s).state.restarting = true
    ∧ (∀ j, 1 ≤ j → Action.hookBeforeRestart j ∉ (restart env change s).trace)
    ∧ Action.linkStartOrRestart ∉ (restart env change s).trace := by
  have h1 := sor_ok_of_all (toChangeEvent change) 0 env.plugins hsor
  have h2 : (runBeforeRestartHooks 0 env.plugins).2 = true := by
    simp [hp, runBeforeRestartHooks, hbr]
  have htr : (runBeforeRestartHooks 0 env.plugins).1 = [Action.hookBeforeRestart 0] := by
    simp [hp, runBeforeRestartHooks, hbr]
  rw [restart_eq_br_err env change s hs h1 h2]
  refine ⟨rfl, rfl, ?_, ?_⟩
  · intro j hj hmem
    rw [htr] at hmem
    simp only [List.append_assoc, List.mem_append, List.mem_cons, List.mem_singleton] at hmem
    rcases hmem with hmem | hmem | hmem
    · simp at hmem
    · rcases sor_trace_mem (toChangeEvent change) 0 env.plugins _ hmem with ⟨k, hk⟩ | ⟨k, hk⟩ <;>
        simp at hk
    · rcases hmem with hmem | hmem | hmem <;> simp_all
  · intro hmem
    rw [htr] at hmem
    simp only [List.append_assoc, List.mem_append, List.mem_cons, List.mem_singleton] at hmem
    rcases hmem with hmem | hmem | hmem
    · simp at hmem
    · rcases sor_trace_mem (toChangeEvent change) 0 env.plugins _ hmem with ⟨k, hk⟩ | ⟨k, hk⟩ <;>
        simp at hk
    · rcases hmem with hmem | hmem | hmem <;> simp_all

/-- C4 witness: with the concrete throwing-then-healthy plugin pair, the
cycle errors, the sibling's phase-4 hook never fires and the link is
never restarted. -/
theorem plugin_hook_error_not_isolated_witness :
    (restart c4Env (PostInitChangeEvent.watch ChokEventType.change "a.ts")
      { restarting := false, paused := false }).error = true
    ∧ (restart c4Env (PostInitChangeEvent.watch ChokEventType.change "a.ts")
      { restarting := false, paused := false }).state.restarting = true
    ∧ (∀ j, 1 ≤ j → Action.hookBeforeRestart j ∉
        (restart c4Env (PostInitChangeEvent.watch ChokEventType.change "a.ts")
          { restarting := false, paused := false }).trace)
    ∧ Action.linkStartOrRestart ∉
        (restart c4Env (PostInitChangeEvent.watch ChokEventType.change "a.ts")
          { restarting := false, paused := false }).trace :=
  plugin_hook_error_not_isolated c4Env c4A [c4B]
    (PostInitChangeEvent.watch ChokEventType.change "a.ts")
    { restarting := false, paused := false } rfl rfl rfl (by decide)

/-- C4 counterexample: with plugin 0 throwing in `onBeforeWatcherRestart`
and a healthy sibling plugin 1, the sibling's same-phase hook is never
invoked and the cycle aborts before the link restart — refuting the
claim that a raising hook is caught and sibling hooks still run. -/
theorem plugin_hook_error_cex :
    (restart c4Env (PostInitChangeEvent.watch ChokEventType.change "a.ts")
      { restarting := false, paused := false }).error = true
    ∧ Action.hookBeforeRestart 1 ∉
        (restart c4Env (PostInitChangeEvent.watch ChokEventType.change "a.ts")
          { restarting := false, paused := false }).trace
    ∧ Action.linkStartOrRestart ∉
        (restart c4Env (PostInitChangeEvent.watch ChokEventType.change "a.ts")
          { restarting := false, paused := false }).trace := by
  decide

/-- C5 (amended): in an accepted cycle whose hooks succeed, a change
event on the tracked tsconfig path causes full reinitialisation —
`compiler.init` is called again — AND the incremental
`compiler.compileChanged` still runs on that file afterwards (it is
unconditional in the source); for any other changed file only
`compileChanged` runs, never `init`. -/
theorem tsconfig_change_full_reinit_plus_incremental (env : Env)
    (change : PostInitChangeEvent) (s : WState)
    (hs : s.restarting = false)
    (hsor : allSorOk (toChangeEvent change) env.plugins = true)
    (hbr : allBrOk env.plugins = true) :
    (change.file = env.tsConfigPath →
      Action.compilerInit ∈ (restart env change s).trace ∧
      Action.compileChanged change.file ∈ (restart env change s).trace)
    ∧ (change.file ≠ env.tsConfigPath →
      Action.compilerInit ∉ (restart env change s).trace ∧
      Action.compileChanged change.file ∈ (restart env change s).trace) := by
  have h1 := sor_ok_of_all (toChangeEvent change) 0 env.plugins hsor
  have h2 := br_ok_of_all 0 env.plugins hbr
  cases hl : env.linkStartOrRestart with
  | err =>
    rw [restart_eq_link_err env change s hs h1 h2 hl]
    constructor
    · intro hts; simp [hts]
    · intro hts
      refine ⟨?_, by simp⟩
      intro hmem
      simp only [List.append_assoc, List.mem_append, List.mem_cons, List.mem_singleton,
        List.not_mem_nil, hts, if_neg] at hmem
      rcases hmem with hmem | hmem | hmem
      · simp at hmem
      · exact compile_not_mem_sor _ 0 env.plugins hmem
      · rcases hmem with hmem | hmem
        · simp at hmem
        · rcases hmem with hmem | hmem
          · exact compile_not_mem_br 0 env.plugins hmem
          · simp [hts] at hmem
  | ok =>
    rw [restart_eq_ok env change s hs h1 h2 hl]
    constructor
    · intro hts; simp [hts]
    · intro hts
      refine ⟨?_, by simp⟩
      intro hmem
      simp only [List.append_assoc, List.mem_append, List.mem_cons, List.mem_singleton,
        List.not_mem_nil] at hmem
      rcases hmem with hmem | hmem | hmem
      · simp at hmem
      · exact compile_not_mem_sor _ 0 env.plugins hmem
      · rcases hmem with hmem | hmem
        · simp at hmem
        · rcases hmem with hmem | hmem
          · exact compile_not_mem_br 0 env.plugins hmem
          · simp [hts] at hmem

/-- C5 witness: a concrete cycle on the tracked tsconfig file calls
`init` and still runs `compileChanged`, and a cycle on another file
calls only `compileChanged`. -/
theorem tsconfig_change_full_reinit_plus_incremental_witness :
    (Action.compilerInit ∈ (restart c5Env
        (PostInitChangeEvent.watch ChokEventType.change "tsconfig.json")
        { restarting := false, paused := false }).trace ∧
      Action.compileChanged (PostInitChangeEvent.watch ChokEventType.change
        "tsconfig.json").file ∈ (restart c5Env
        (PostInitChangeEvent.watch ChokEventType.change "tsconfig.json")
        { restarting := false, paused := false }).trace)
    ∧ (Action.compilerInit ∉ (restart c5Env
        (PostInitChangeEvent.watch ChokEventType.change "other.ts")
        { restarting := false, paused := false }).trace ∧
      Action.compileChanged (PostInitChangeEvent.watch ChokEventType.change
        "other.ts").file ∈ (restart c5Env
        (PostInitChangeEvent.watch ChokEventType.change "other.ts")
        { restarting := false, paused := false }).trace) :=
  ⟨(tsconfig_change_full_reinit_plus_incremental c5Env
      (PostInitChangeEvent.watch ChokEventType.change "tsconfig.json")
      { restarting := false, paused := false } rfl (by decide) (by decide)).1 rfl,
   (tsconfig_change_full_reinit_plus_incremental c5Env
      (PostInitChangeEvent.watch ChokEventType.change "other.ts")
      { restarting := false, paused := false } rfl (by decide) (by decide)).2 (by decide)⟩

/-- C5 counterexample: on a tsconfig change the trace contains BOTH the
full reinitialisation and the incremental `compileChanged` call —
refuting the claim that full reinitialisation happens "rather than" the
incremental `compileChanged` path. -/
theorem tsconfig_compile_cex :
    Action.compilerInit ∈ (restart c5Env
      (PostInitChangeEvent.watch ChokEventType.change "tsconfig.json")
      { restarting := false, paused := false }).trace
    ∧ Action.compileChanged "tsconfig.json" ∈ (restart c5Env
      (PostInitChangeEvent.watch ChokEventType.change "tsconfig.json")
      { restarting := false, paused := false }).trace := by
  decide

/-- C7 (amended): the restart cycle itself never pauses (or resumes)
the watcher — the paused flag is untouched by `restart` and no
pause/resume action appears in its trace.  When the managed process
reports listening, `onServerListening` fires every plugin's
`onAfterWatcherRestart` hook in registration order and only after all
of them (when none throws) calls `watcher.resume`, which is the last
action of its trace and clears the paused flag. -/
theorem restart_window_pause_resume :
    (∀ (env : Env) (change : PostInitChangeEvent) (s : WState),
      (restart env change s).state.paused = s.paused
      ∧ Action.watcherPause ∉ (restart env change s).trace
      ∧ Action.watcherResume ∉ (restart env change s).trace)
    ∧ (∀ (plugins : List PluginDev) (s : WState), allArOk plugins = true →
        (onServerListening plugins s).trace = arActions 0 plugins ++ [Action.watcherResume]
        ∧ (onServerListening plugins s).state.paused = false
        ∧ (onServerListening plugins s).error = false) := by
  constructor
  · intro env change s
    cases hs : s.restarting with
    | true =>
      have hres : restart env change s =
          { trace := [Action.log "restart already in progress"], state := s, error := false } := by
        simp [restart, hs]
      rw [hres]
      refine ⟨rfl, by simp, by simp⟩
    | false =>
      cases h1 : (runBeforeSORHooks (toChangeEvent change) 0 env.plugins).2 with
      | true =>
        rw [restart_eq_sor_err env change s hs h1]
        refine ⟨rfl, ?_, ?_⟩ <;>
        · intro hmem
          simp only [List.append_assoc, List.mem_append] at hmem
          rcases hmem with hmem | hmem
          · simp at hmem
          · first
            | exact pause_not_mem_sor _ 0 env.plugins hmem
            | exact resume_not_mem_sor _ 0 env.plugins hmem
      | false =>
        cases h2 : (runBeforeRestartHooks 0 env.plugins).2 with
        | true =>
          rw [restart_eq_br_err env change s hs h1 h2]
          refine ⟨rfl, ?_, ?_⟩ <;>
          · intro hmem
            simp only [List.append_assoc, List.mem_append, List.mem_cons,
              List.not_mem_nil] at hmem
            rcases hmem with hmem | hmem | hmem
            · simp at hmem
            · first
              | exact pause_not_mem_sor _ 0 env.plugins hmem
              | exact resume_not_mem_sor _ 0 env.plugins hmem
            · rcases hmem with hmem | hmem
              · simp at hmem
              · first
                | exact pause_not_mem_br 0 env.plugins hmem
                | exact resume_not_mem_br 0 env.plugins hmem
        | false =>
          cases hl : env.linkStartOrRestart with
          | err =>
            rw [restart_eq_link_err env change s hs h1 h2 hl]
            refine ⟨rfl, ?_, ?_⟩ <;>
            · intro hmem
              simp only [List.append_assoc, List.mem_append, List.mem_cons,
                List.not_mem_nil] at hmem
              rcases hmem with hmem | hmem | hmem
              · simp at hmem
              · first
                | exact pause_not_mem_sor _ 0 env.plugins hmem
                | exact resume_not_mem_sor _ 0 env.plugins hmem
              · rcases hmem with hmem | hmem
                · simp at hmem
                · rcases hmem with hmem | hmem
                  · first
                    | exact pause_not_mem_br 0 env.plugins hmem
                    | exact resume_not_mem_br 0 env.plugins hmem
                  · by_cases hts : change.file = env.tsConfigPath <;> simp [hts] at hmem
          | ok =>
            rw [restart_eq_ok env change s hs h1 h2 hl]
            refine ⟨rfl, ?_, ?_⟩ <;>
            · intro hmem
              simp only [List.append_assoc, List.mem_append, List.mem_cons,
                List.not_mem_nil] at hmem
              rcases hmem with hmem | hmem | hmem
              · simp at hmem
              · first
                | exact pause_not_mem_sor _ 0 env.plugins hmem
                | exact resume_not_mem_sor _ 0 env.plugins hmem
              · rcases hmem with hmem | hmem
                · simp at hmem
                · rcases hmem with hmem | hmem
                  · first
                    | exact pause_not_mem_br 0 env.plugins hmem
                    | exact resume_not_mem_br 0 env.plugins hmem
                  · by_cases hts : change.file = env.tsConfigPath <;> simp [hts] at hmem
  · intro plugins s har
    have h := ar_ok_of_all 0 plugins har
    have ht := ar_trace_of_ok 0 plugins h
    simp [onServerListening, h, ht]

/-- C7 witness: on the concrete one-plugin environment, the
server-listening callback fires the after-restart hook then resumes. -/
theorem restart_window_pause_resume_witness :
    (onServerListening [c7Plug] { restarting := false, paused := true }).trace =
      arActions 0 [c7Plug] ++ [Action.watcherResume]
    ∧ (onServerListening [c7Plug] { restarting := false, paused := true }).state.paused = false
    ∧ (onServerListening [c7Plug] { restarting := false, paused := true }).error = false :=
  restart_window_pause_resume.2 [c7Plug] { restarting := false, paused := true } (by decide)

/-- C7 counterexample: a complete successful restart cycle starting with
the watcher unpaused never pauses it — no pause action in the trace and
the paused flag still false at the end — refuting the claim that the
watcher is paused during every restart cycle. -/
theorem no_pause_during_restart_cex :
    Action.watcherPause ∉ (restart c7Env
      (PostInitChangeEvent.watch ChokEventType.change "a.ts")
      { restarting := false, paused := false }).trace
    ∧ (restart c7Env (PostInitChangeEvent.watch ChokEventType.change "a.ts")
      { restarting := false, paused := false }).state.paused = false
    ∧ (restart c7Env (PostInitChangeEvent.watch ChokEventType.change "a.ts")
      { restarting := false, paused := false }).error = false := by
  decide

/-- C8 (amended): the inline first-start block runs a reduced pipeline
under the same busy-guard: it never invokes any `onBeforeWatcherRestart`
hook and never calls the compiler (neither `init` nor `compileChanged`);
when its hooks and the link succeed it runs exactly the
`onBeforeWatcherStartOrRestart` hooks in registration order (fed the
synthetic init event) followed by the link start-or-restart and the
transition back to idle. -/
theorem init_start_reduced_pipeline (env : Env) (s : WState) :
    ((∀ j, Action.hookBeforeRestart j ∉ (initStart env s).trace)
     ∧ Action.compilerInit ∉ (initStart env s).trace
     ∧ (∀ f, Action.compileChanged f ∉ (initStart env s).trace))
    ∧ (allSorOk ChangeEvent.init env.plugins = true → env.linkStartOrRestart = HookURes.ok →
        (initStart env s).trace.filterMap phaseTag =
          sorPhases 0 env.plugins ++ [PhaseEv.link, PhaseEv.idle]
        ∧ (initStart env s).error = false
        ∧ (initStart env s).state.restarting = false) := by
  constructor
  · cases h1 : (runBeforeSORHooks ChangeEvent.init 0 env.plugins).2 with
    | true =>
      rw [initStart_eq_sor_err env s h1]
      refine ⟨?_, ?_, ?_⟩
      · intro j hmem
        simp only [List.mem_append] at hmem
        rcases hmem with hmem | hmem
        · simp at hmem
        · exact br_not_mem_sor _ 0 env.plugins j hmem
      · intro hmem
        simp only [List.mem_append] at hmem
        rcases hmem with hmem | hmem
        · simp at hmem
        · exact compile_not_mem_sor _ 0 env.plugins hmem
      · intro f hmem
        simp only [List.mem_append] at hmem
        rcases hmem with hmem | hmem
        · simp at hmem
        · exact cchanged_not_mem_sor _ 0 env.plugins f hmem
    | false =>
      cases hl : env.linkStartOrRestart with
      | err =>
        rw [initStart_eq_link_err env s h1 hl]
        refine ⟨?_, ?_, ?_⟩
        · intro j hmem
          simp only [List.append_assoc, List.mem_append] at hmem
          rcases hmem with hmem | hmem | hmem
          · simp at hmem
          · exact br_not_mem_sor _ 0 env.plugins j hmem
          · simp at hmem
        · intro hmem
          simp only [List.append_assoc, List.mem_append] at hmem
          rcases hmem with hmem | hmem | hmem
          · simp at hmem
          · exact compile_not_mem_sor _ 0 env.plugins hmem
          · simp at hmem
        · intro f hmem
          simp only [List.append_assoc, List.mem_append] at hmem
          rcases hmem with hmem | hmem | hmem
          · simp at hmem
          · exact cchanged_not_mem_sor _ 0 env.plugins f hmem
          · simp at hmem
      | ok =>
        rw [initStart_eq_ok env s h1 hl]
        refine ⟨?_, ?_, ?_⟩
        · intro j hmem
          simp only [List.append_assoc, List.mem_append] at hmem
          rcases hmem with hmem | hmem | hmem
          · simp at hmem
          · exact br_not_mem_sor _ 0 env.plugins j hmem
          · simp at hmem
        · intro hmem
          simp only [List.append_assoc, List.mem_append] at hmem
          rcases hmem with hmem | hmem | hmem
          · simp at hmem
          · exact compile_not_mem_sor _ 0 env.plugins hmem
          · simp at hmem
        · intro f hmem
          simp only [List.append_assoc, List.mem_append] at hmem
          rcases hmem with hmem | hmem | hmem
          · simp at hmem
          · exact cchanged_not_mem_sor _ 0 env.plugins f hmem
          · simp at hmem
  · intro hsor hl
    have h1 := sor_ok_of_all ChangeEvent.init 0 env.plugins hsor
    rw [initStart_eq_ok env s h1 hl]
    refine ⟨?_, rfl, rfl⟩
    simp [List.filterMap_append, phaseTag, sor_proj_of_ok ChangeEvent.init 0 env.plugins h1]

/-- C8 witness: concrete one-plugin first start, all hypotheses
discharged. -/
theorem init_start_reduced_pipeline_witness :
    ((∀ j, Action.hookBeforeRestart j ∉
        (initStart c8Env { restarting := false, paused := false }).trace)
     ∧ Action.compilerInit ∉ (initStart c8Env { restarting := false, paused := false }).trace
     ∧ (∀ f, Action.compileChanged f ∉
        (initStart c8Env { restarting := false, paused := false }).trace))
    ∧ ((initStart c8Env { restarting := false, paused := false }).trace.filterMap phaseTag =
          sorPhases 0 c8Env.plugins ++ [PhaseEv.link, PhaseEv.idle]
        ∧ (initStart c8Env { restarting := false, paused := false }).error = false
        ∧ (initStart c8Env
            { restarting := false, paused := false }).state.restarting = false) :=
  ⟨(init_start_reduced_pipeline c8Env { restarting := false, paused := false }).1,
   (init_start_reduced_pipeline c8Env
      { restarting := false, paused := false }).2 (by decide) rfl⟩

/-- C8 counterexample: with a plugin that has both pre-restart hooks,
a restart cycle invokes `onBeforeWatcherRestart` and the compiler, but
the first-start cycle invokes neither — refuting the claim that the
initial start runs the same full hook pipeline as a restart cycle. -/
theorem init_pipeline_cex :
    Action.hookBeforeRestart 0 ∈ (restart c8Env
      (PostInitChangeEvent.watch ChokEventType.change "a.ts")
      { restarting := false, paused := false }).trace
    ∧ Action.hookBeforeRestart 0 ∉
        (initStart c8Env { restarting := false, paused := false }).trace
    ∧ Action.compileChanged "a.ts" ∈ (restart c8Env
        (PostInitChangeEvent.watch ChokEventType.change "a.ts")
        { restarting := false, paused := false }).trace
    ∧ Action.compileChanged "a.ts" ∉
        (initStart c8Env { restarting := false, paused := false }).trace := by
  decide

/-- C6 (amended): for every matcher compiled from an allow list (whose
patterns do not themselves start with `!`) and a deny list, a path
matches iff it satisfies at least one allow pattern AND satisfies no
deny pattern — deny always wins, but an empty allow list matches no
path rather than making all paths candidate; and on the concrete
example, with allow `src/**/*.ts` and deny `src/**/*.test.ts`, the path
`src/a.ts` matches while `src/a.test.ts` and `lib/a.ts` do not. -/
theorem createPathMatcher_allow_deny_semantics :
    (∀ (allow deny : List (List Char)) (path : List Char),
      (∀ p ∈ allow, p.head? ≠ some '!') →
      createPathMatcher { toMatch := some allow, toIgnore := some deny } path =
        (allow.any (fun g => globMatch g path) && !(deny.any (fun g => globMatch g path))))
    ∧ (createPathMatcher
        { toMatch := some ["src/**/*.ts".toList], toIgnore := some ["src/**/*.test.ts".toList] }
        "src/a.ts".toList = true
      ∧ createPathMatcher
        { toMatch := some ["src/**/*.ts".toList], toIgnore := some ["src/**/*.test.ts".toList] }
        "src/a.test.ts".toList = false
      ∧ createPathMatcher
        { toMatch := some ["src/**/*.ts".toList], toIgnore := some ["src/**/*.test.ts".toList] }
        "lib/a.ts".toList = false) := by
  constructor
  · intro allow deny path h
    have hfa : allow.filter (fun m => m.head? == some '!') = [] := by
      rw [List.filter_eq_nil_iff]
      intro a ha
      simpa using h a ha
    have hfa2 : allow.filter (fun m => !(m.head? == some '!')) = allow := by
      rw [List.filter_eq_self]
      intro a ha
      simpa using h a ha
    have hfd : (deny.map (fun pattern => '!' :: pattern)).filter
        (fun m => m.head? == some '!') = deny.map (fun pattern => '!' :: pattern) := by
      rw [List.filter_eq_self]
      intro a ha
      simp only [List.mem_map] at ha
      obtain ⟨b, _, rfl⟩ := ha
      simp
    have hfd2 : (deny.map (fun pattern => '!' :: pattern)).filter
        (fun m => !(m.head? == some '!')) = [] := by
      rw [List.filter_eq_nil_iff]
      intro a ha
      simp only [List.mem_map] at ha
      obtain ⟨b, _, rfl⟩ := ha
      simp
    unfold createPathMatcher anymatch
    simp only [Option.getD_some, Option.map_some, Option.map_some', List.filter_append,
      hfa, hfa2, hfd, hfd2, List.nil_append, List.append_nil, negmap_drop]
    cases hd : deny.any (fun g => globMatch g path) with
    | true => simp only [hd, if_pos, reduceIte, Bool.not_true, Bool.and_false]
    | false =>
      simp only [hd, Bool.not_false, Bool.and_true]
      rw [if_neg (by simp)]
  · refine ⟨?_, ?_, ?_⟩ <;>
      simp [createPathMatcher, anymatch, globMatch, globSegsMatch, segMatch, splitSlash]

/-- C6 witness: the general semantics applied to the concrete allow and
deny lists of the specification example. -/
theorem createPathMatcher_allow_deny_semantics_witness :
    createPathMatcher
      { toMatch := some ["src/**/*.ts".toList], toIgnore := some ["src/**/*.test.ts".toList] }
      "src/a.ts".toList =
    (["src/**/*.ts".toList].any (fun g => globMatch g "src/a.ts".toList) &&
      !(["src/**/*.test.ts".toList].any (fun g => globMatch g "src/a.ts".toList))) :=
  createPathMatcher_allow_deny_semantics.1
    ["src/**/*.ts".toList] ["src/**/*.test.ts".toList] "src/a.ts".toList (by decide)

/-- C6 counterexample: with an empty allow list and empty deny list the
spec semantics declare every path a match, but `createPathMatcher`
matches nothing — refuting the claim's "or the allow list is empty, in
which case all paths are candidate" clause. -/
theorem empty_allow_matches_nothing_cex :
    specMatcherMatches [] [] "a.ts".toList = true
    ∧ createPathMatcher { toMatch := some [], toIgnore := some [] } "a.ts".toList = false
    ∧ createPathMatcher { toMatch := none, toIgnore := none } "a.ts".toList = false := by
  refine ⟨by simp [specMatcherMatches], ?_, ?_⟩ <;> simp [createPathMatcher, anymatch]

/-- C9: global-ignore and plugin-scoped matching are independent — for
every plugin list and file, each plugin's delivery decision is a
function of that plugin's own listener settings only, and whenever a
plugin with a listener matches the file, the event is delivered to it
even if the global ignore matcher matches the file too (in which case
the global path does not invoke restart). -/
theorem global_ignore_independence (plugins : List PluginDev) (file : List Char)
    (i : Fin plugins.length)
    (h1 : (plugins.get i).hasOnFileWatcherEvent = true)
    (h2 : isMatchedByPluginListener (plugins.get i) file = true)
    (h3 : isIgnoredByCoreListener plugins file = true) :
    (dispatchWatchEvent plugins file).restartInvoked = false
    ∧ (∃ hlen : i.val < (dispatchWatchEvent plugins file).delivered.length,
        (dispatchWatchEvent plugins file).delivered.get ⟨i.val, hlen⟩ = true)
    ∧ (∀ j : Fin plugins.length,
        ∃ hlen : j.val < (dispatchWatchEvent plugins file).delivered.length,
          (dispatchWatchEvent plugins file).delivered.get ⟨j.val, hlen⟩ =
            ((plugins.get j).hasOnFileWatcherEvent &&
              isMatchedByPluginListener (plugins.get j) file)) := by
  refine ⟨by simp [dispatchWatchEvent, h3], ?_, ?_⟩
  · refine ⟨by simp [dispatchWatchEvent, i.isLt], ?_⟩
    simp only [dispatchWatchEvent, List.get_eq_getElem, List.getElem_map]
    rw [List.get_eq_getElem] at h1 h2
    simp [h1, h2]
  · intro j
    refine ⟨by simp [dispatchWatchEvent, j.isLt], ?_⟩
    simp only [dispatchWatchEvent, List.get_eq_getElem, List.getElem_map]

/-- C9 witness: a file inside `src/` matches the concrete plugin's
allow pattern and the global app-ignore contribution `src/**`; the
plugin handler is still invoked while the global path drops the
event. -/
theorem global_ignore_independence_witness :
    (dispatchWatchEvent [c9Plug] "src/a.ts".toList).restartInvoked = false
    ∧ (∃ hlen : 0 < (dispatchWatchEvent [c9Plug] "src/a.ts".toList).delivered.length,
        (dispatchWatchEvent [c9Plug] "src/a.ts".toList).delivered.get ⟨0, hlen⟩ = true)
    ∧ (∀ j : Fin ([c9Plug] : List PluginDev).length,
        ∃ hlen : j.val < (dispatchWatchEvent [c9Plug] "src/a.ts".toList).delivered.length,
          (dispatchWatchEvent [c9Plug] "src/a.ts".toList).delivered.get ⟨j.val, hlen⟩ =
            ((([c9Plug] : List PluginDev).get j).hasOnFileWatcherEvent &&
              isMatchedByPluginListener (([c9Plug] : List PluginDev).get j)
                "src/a.ts".toList)) :=
  global_ignore_independence [c9Plug] "src/a.ts".toList ⟨0, by decide⟩ rfl
    (by simp [isMatchedByPluginListener, c9Plug, createPathMatcher, anymatch,
      globMatch, globSegsMatch, segMatch, splitSlash])
    (by simp [isIgnoredByCoreListener, pluginIgnoreContributions, appIgnorePatterns, c9Plug,
      createPathMatcher, anymatch, globMatch, globSegsMatch, segMatch, splitSlash])

set_option maxRecDepth 8192 in
/-- C10: `createStartModuleContent` is deterministic exactly when no
runtime plugins are configured — with an empty `runtimePluginNames` the
output does not depend on the stream of random alias draws, while with
a non-empty list two runs over the same config can produce different
strings (the import aliases embed the random draws). -/
theorem start_module_determinism :
    (∀ (ext : StartModule.Ext) (config : StartModule.StartModuleConfig)
      (r1 r2 : Nat → String), config.runtimePluginNames = [] →
      StartModule.createStartModuleContent ext config r1 =
        StartModule.createStartModuleContent ext config r2)
    ∧ StartModule.createStartModuleContent c10Ext c10Cfg (fun _ => "111") ≠
        StartModule.createStartModuleContent c10Ext c10Cfg (fun _ => "222") := by
  constructor
  · intro ext config r1 r2 h
    simp only [StartModule.createStartModuleContent, h, List.isEmpty_nil, if_true]
  · decide

/-- C10 witness: the determinism half applied to a concrete
plugin-free config and two different random streams. -/
theorem start_module_determinism_witness :
    StartModule.createStartModuleContent c10Ext c10CfgEmpty (fun _ => "111") =
      StartModule.createStartModuleContent c10Ext c10CfgEmpty (fun _ => "222") :=
  start_module_determinism.1 c10Ext c10CfgEmpty (fun _ => "111") (fun _ => "222") rfl

end Nexus
